import Mathlib

/-!
Shallow embedding of the Husqvarna Automower BLE Home Assistant integration
(`custom_components/husqvarna_automower_ble`): the activity mapper and entity
adapters of `lawn_mower.py`, and the reconnect-aware polling coordinator of
`coordinator.py`.  External effects (BLE reads, connects, scans) are modelled
by environments listing the outcome each external call would produce, and the
code is embedded as pure functions from an environment and the current
connection state to a result, the new connection state and a trace of the
external calls made.
-/

namespace AutomowerBLE

/-- The externally defined `automower_ble.protocol.MowerState` values that the
integration mentions, plus `other` for any value it never names. -/
inductive MowerState where
  | PAUSED
  | WAIT_FOR_SAFETYPIN
  | STOPPED
  | FATAL_ERROR
  | ERROR
  | PENDING_START
  | IN_OPERATION
  | RESTRICTED
  | other
  deriving DecidableEq, Repr

/-- The externally defined `automower_ble.protocol.MowerActivity` values that the
integration mentions, plus `other` for any value it never names. -/
inductive MowerActivity where
  | CHARGING
  | PARKED
  | GOING_OUT
  | MOWING
  | GOING_HOME
  | other
  deriving DecidableEq, Repr

/-- The Home Assistant `LawnMowerActivity` values used by `lawn_mower.py`. -/
inductive LawnMowerActivity where
  | MOWING
  | PAUSED
  | DOCKED
  | ERROR
  deriving DecidableEq, Repr

/-- The coordinator's snapshot (`data` dict built by
`Coordinator._async_update_data`): battery level, activity code, state code.
Fields are `Option` because the Python dict holds whatever the client read
returned, which may be `None`. -/
structure Snapshot where
  battery_level : Option Nat
  activity : Option MowerActivity
  state : Option MowerState
  deriving DecidableEq, Repr

/-- `AutomowerLawnMower._get_activity` (lawn_mower.py lines 73-113), embedded
directly from the source: `None` data or a `None` state/activity field gives
`none`; then the chain of `if` tests in source order, first match winning, with
the trailing `return LawnMowerActivity.ERROR` as the fall-through. -/
def get_activity (data : Option Snapshot) : Option LawnMowerActivity :=
  match data with
  | none => none
  | some d =>
    match d.state with
    | none => none
    | some st =>
      match d.activity with
      | none => none
      | some ac =>
        if st = MowerState.PAUSED then
          some LawnMowerActivity.PAUSED
        else if st ∈ [MowerState.WAIT_FOR_SAFETYPIN, MowerState.STOPPED,
                      MowerState.FATAL_ERROR, MowerState.ERROR] then
          some LawnMowerActivity.ERROR
        else if st ∈ [MowerState.PENDING_START, MowerState.IN_OPERATION,
                      MowerState.RESTRICTED] then
          if ac ∈ [MowerActivity.CHARGING, MowerActivity.PARKED] then
            some LawnMowerActivity.DOCKED
          else if ac ∈ [MowerActivity.GOING_OUT, MowerActivity.MOWING,
                        MowerActivity.GOING_HOME] then
            some LawnMowerActivity.MOWING
          else
            some LawnMowerActivity.ERROR
        else
          some LawnMowerActivity.ERROR

/-- First-match-wins evaluation of an ordered rule list: the result of the
first rule whose guard holds, else the default. -/
def firstMatch {α : Type} : List (Bool × α) → α → α
  | [], dflt => dflt
  | (true, r) :: _, _ => r
  | (false, _) :: rest, dflt => firstMatch rest dflt

/-- The spec's §4.1 decision table, written as the spec states it: an ordered
rule list evaluated first-match-wins over the (state, activity) pair; rule 1
absent inputs, rule 2 PAUSED, rule 3 the stopped-like states, rule 4 the
in-operation states split on activity, rule 5 default ERROR. -/
def specMapper (state : Option MowerState) (activity : Option MowerActivity) :
    Option LawnMowerActivity :=
  firstMatch
    [ (state.isNone || activity.isNone, none),
      (decide (state = some MowerState.PAUSED), some LawnMowerActivity.PAUSED),
      (decide (∃ s ∈ [MowerState.WAIT_FOR_SAFETYPIN, MowerState.STOPPED,
                      MowerState.FATAL_ERROR, MowerState.ERROR], state = some s),
        some LawnMowerActivity.ERROR),
      (decide (∃ s ∈ [MowerState.PENDING_START, MowerState.IN_OPERATION,
                      MowerState.RESTRICTED], state = some s) &&
        decide (∃ a ∈ [MowerActivity.CHARGING, MowerActivity.PARKED],
                 activity = some a),
        some LawnMowerActivity.DOCKED),
      (decide (∃ s ∈ [MowerState.PENDING_START, MowerState.IN_OPERATION,
                      MowerState.RESTRICTED], state = some s) &&
        decide (∃ a ∈ [MowerActivity.GOING_OUT, MowerActivity.MOWING,
                       MowerActivity.GOING_HOME], activity = some a),
        some LawnMowerActivity.MOWING) ]
    (some LawnMowerActivity.ERROR)

/-- The §4.1 table applied to a coordinator snapshot: an absent snapshot means
both inputs are absent. -/
def specMapperData (data : Option Snapshot) : Option LawnMowerActivity :=
  match data with
  | none => none
  | some d => specMapper d.state d.activity

/-- The outcome of one awaited client read (`battery_level`, `mower_activity`
or `mower_state`): a value, a returned `None`, or a raised `BleakError`. -/
inductive ReadResult (α : Type) where
  | value : α → ReadResult α
  | absent : ReadResult α
  | bleakError : ReadResult α
  deriving DecidableEq, Repr

/-- The distinct `UpdateFailed` exceptions `coordinator.py` can raise,
identified by the message passed at each raise site. -/
inductive UpdateFailed where
  | cantFindDevice
  | failedToConnect
  | errorGettingData
  deriving DecidableEq, Repr

/-- One externally visible call made during a poll cycle, in the order the
coordinator makes them. -/
inductive Event where
  | findAttempt
  | closeStale
  | cacheLookup (found : Bool)
  | activeScan (found : Bool)
  | connectCall (ok : Bool)
  | readBattery (r : ReadResult Nat)
  | readActivity (r : ReadResult MowerActivity)
  | readState (r : ReadResult MowerState)
  | disconnectCall
  deriving DecidableEq, Repr

/-- The environment of one poll cycle: the outcome each external call would
produce if made.  `activeScanDevice` says whether an active scan
(`bleak_retry_connector.get_device`) would find the device; the coordinator's
source never makes that call, the field exists so that theorems can state it. -/
structure PollEnv where
  cacheDevice : Bool
  activeScanDevice : Bool
  connectOk : Bool
  batteryRead : ReadResult Nat
  activityRead : ReadResult MowerActivity
  stateRead : ReadResult MowerState
  deriving DecidableEq, Repr

instance exceptDecEq {ε α : Type} [DecidableEq ε] [DecidableEq α] :
    DecidableEq (Except ε α) := fun x y =>
  match x, y with
  | Except.ok a, Except.ok b =>
    if h : a = b then isTrue (by rw [h])
    else isFalse (by intro hc; cases hc; exact h rfl)
  | Except.error a, Except.error b =>
    if h : a = b then isTrue (by rw [h])
    else isFalse (by intro hc; cases hc; exact h rfl)
  | Except.ok _, Except.error _ => isFalse (by intro hc; cases hc)
  | Except.error _, Except.ok _ => isFalse (by intro hc; cases hc)

/-- What one poll cycle produced: the returned snapshot or the raised
`UpdateFailed`, the connection state of the mower handle afterwards, and the
trace of external calls made. -/
structure CycleResult where
  result : Except UpdateFailed Snapshot
  conn : Bool
  trace : List Event
  deriving DecidableEq, Repr

/-- `Coordinator._async_find_device` (coordinator.py lines 59-71): close stale
connections, look the device up in the platform scan cache
(`bluetooth.async_ble_device_from_address`), raise `UpdateFailed` if absent,
else call `mower.connect` and raise `UpdateFailed` if that returns falsy.
There is no active-scan fallback in this function.  Returns the raised error
(if any), the connection state afterwards, and the calls made. -/
def findDevice (env : PollEnv) (conn : Bool) :
    Option UpdateFailed × Bool × List Event :=
  let tr := [Event.findAttempt, Event.closeStale, Event.cacheLookup env.cacheDevice]
  if env.cacheDevice then
    if env.connectOk then
      (none, true, tr ++ [Event.connectCall true])
    else
      (some UpdateFailed.failedToConnect, false, tr ++ [Event.connectCall false])
  else
    (some UpdateFailed.cantFindDevice, conn, tr)

/-- The read-failure path of `_async_update_data`: on a `None` read or a
`BleakError`, the coordinator awaits `_async_find_device()` and then raises
`UpdateFailed("Error getting data from device")` — unless `_async_find_device`
itself raised first, in which case that earlier `UpdateFailed` propagates.
The `UpdateFailed` that reaches the caller is `failErr`. -/
def failErr (env : PollEnv) (conn : Bool) : UpdateFailed :=
  match (findDevice env conn).1 with
  | some e => e
  | none => UpdateFailed.errorGettingData

/-- The cycle outcome of the read-failure path (`failErr` raised after the
reconnect attempt); `tr` is the trace accumulated before the failing read was
noticed. -/
def failCycle (env : PollEnv) (conn : Bool) (tr : List Event) : CycleResult :=
  ⟨Except.error (failErr env conn),
    (findDevice env conn).2.1,
    tr ++ (findDevice env conn).2.2⟩

/-- The `try` block of `_async_update_data` (coordinator.py lines 82-108):
read battery, activity and state in order, taking the reconnect-and-fail path
(`failPath`) on any `None` value or `BleakError`; on full success, disconnect
when the activity is PARKED and the handle is still connected.  `conn1` is the
connection state on entry to the block, `tr1` the calls already made. -/
def readSequence (env : PollEnv) (conn1 : Bool) (tr1 : List Event) : CycleResult :=
  let tr2 := tr1 ++ [Event.readBattery env.batteryRead]
  match env.batteryRead with
  | ReadResult.value b =>
    let tr3 := tr2 ++ [Event.readActivity env.activityRead]
    match env.activityRead with
    | ReadResult.value a =>
      let tr4 := tr3 ++ [Event.readState env.stateRead]
      match env.stateRead with
      | ReadResult.value s =>
        if a = MowerActivity.PARKED ∧ conn1 = true then
          ⟨Except.ok ⟨some b, some a, some s⟩, false, tr4 ++ [Event.disconnectCall]⟩
        else
          ⟨Except.ok ⟨some b, some a, some s⟩, conn1, tr4⟩
      | _ => failCycle env conn1 tr4
    | _ => failCycle env conn1 tr3
  | _ => failCycle env conn1 tr2

/-- `Coordinator._async_update_data` (coordinator.py lines 73-110): if the
mower is not connected, run `_async_find_device` first and propagate its
`UpdateFailed` if it raises; then the read sequence. -/
def updateData (env : PollEnv) (conn : Bool) : CycleResult :=
  if conn then
    readSequence env conn []
  else
    match (findDevice env conn).1 with
    | some e => ⟨Except.error e, (findDevice env conn).2.1, (findDevice env conn).2.2⟩
    | none => readSequence env (findDevice env conn).2.1 (findDevice env conn).2.2

/-- The mutable state visible to one `AutomowerLawnMower` entity:
its `_attr_activity` and `_attr_available` attributes, the coordinator's
latest `data` snapshot, and whether `coordinator.mower.is_connected()`. -/
structure EntityState where
  attrActivity : Option LawnMowerActivity
  attrAvailable : Bool
  data : Option Snapshot
  conn : Bool
  deriving DecidableEq, Repr

/-- `AutomowerLawnMower.__init__` (lawn_mower.py lines 59-71): the entity is
constructed before the coordinator's first refresh, so `coordinator.data` is
absent; `_attr_activity` is set to `LawnMowerActivity.ERROR`; Home Assistant's
`Entity` base leaves `_attr_available` at its default `True`. -/
def initEntityState (conn : Bool) : EntityState :=
  { attrActivity := some LawnMowerActivity.ERROR
    attrAvailable := true
    data := none
    conn := conn }

/-- `HusqvarnaAutomowerBleEntity.available` (coordinator.py lines 123-126):
the overriding `available` property returns `coordinator.mower.is_connected()`.
Because it is a property on the class, it shadows any `_attr_available`
instance attribute when Home Assistant reads `entity.available`. -/
def entityAvailable (st : EntityState) : Bool :=
  st.conn

/-- `AutomowerLawnMower._handle_coordinator_update` (lawn_mower.py lines
115-122): recompute `_attr_activity` from the snapshot via `_get_activity`,
set `_attr_available` to whether that result is not `None`, and write state. -/
def handle_coordinator_update (st : EntityState) : EntityState :=
  let act := get_activity st.data
  { st with attrActivity := act, attrAvailable := act.isSome }

/-- The environment of one command invocation: the outcome the platform scan
cache lookup and `mower.connect` would produce, whether an active scan would
find the device (the command code never makes that call; the field exists so
theorems can state it), and the poll environment of the refresh the command
requests. -/
structure CmdEnv where
  cacheDevice : Bool
  activeScanDevice : Bool
  connectOk : Bool
  refreshEnv : PollEnv
  deriving DecidableEq, Repr

/-- One externally visible call made by a command body.  `connectCall` records
whether an actual device handle (`devicePresent`, versus Python `None`) was
passed, and what `connect` returned. -/
inductive CmdEvent where
  | cacheLookup (found : Bool)
  | activeScan (found : Bool)
  | connectCall (devicePresent : Bool) (ok : Bool)
  | protoResume
  | protoOverride
  | protoPause
  | protoPark
  | requestRefresh
  | writeHaState
  deriving DecidableEq, Repr

/-- The connection preamble shared by `async_start_mowing`, `async_dock` and
`async_pause` (lawn_mower.py lines 128-133, 147-152, 164-169): if the mower is
not connected, look the address up in the platform scan cache only — no active
scan fallback and no check of the result — and pass the (possibly absent)
device straight to `mower.connect`; if `connect` returns falsy the command
returns immediately.  Result: whether to proceed, the state after, the calls
made. -/
def ensureConnected (env : CmdEnv) (st : EntityState) :
    Bool × EntityState × List CmdEvent :=
  if st.conn then
    (true, st, [])
  else
    let ev := [CmdEvent.cacheLookup env.cacheDevice,
               CmdEvent.connectCall env.cacheDevice env.connectOk]
    if env.connectOk then
      (true, { st with conn := true }, ev)
    else
      (false, { st with conn := false }, ev)

/-- `coordinator.async_request_refresh()` as awaited by a command body: the
framework runs `_async_update_data` (here `updateData`); on success the
coordinator's `data` becomes the new snapshot, on `UpdateFailed` the previous
`data` is kept; either way the mower handle's connection state is whatever the
cycle left it. -/
def requestRefresh (penv : PollEnv) (st : EntityState) : EntityState :=
  let r := updateData penv st.conn
  match r.result with
  | Except.ok snap => { st with data := some snap, conn := r.conn }
  | Except.error _ => { st with conn := r.conn }

/-- `AutomowerLawnMower.async_start_mowing` (lawn_mower.py lines 124-141):
connection preamble; then `mower_resume()`; then `mower_override()` but only
when the current `_attr_activity` equals DOCKED; then request a refresh,
recompute `_attr_activity` from `_get_activity`, and write state. -/
def async_start_mowing (env : CmdEnv) (st : EntityState) :
    EntityState × List CmdEvent :=
  match ensureConnected env st with
  | (false, st1, ev) => (st1, ev)
  | (true, st1, ev) =>
    let ev1 := ev ++ [CmdEvent.protoResume]
    let ev2 := if st1.attrActivity = some LawnMowerActivity.DOCKED then
                 ev1 ++ [CmdEvent.protoOverride]
               else ev1
    let st2 := requestRefresh env.refreshEnv st1
    let st3 := { st2 with attrActivity := get_activity st2.data }
    (st3, ev2 ++ [CmdEvent.requestRefresh, CmdEvent.writeHaState])

/-- `AutomowerLawnMower.async_dock` (lawn_mower.py lines 143-158): connection
preamble; then `mower_park()`; then refresh, recompute, write state. -/
def async_dock (env : CmdEnv) (st : EntityState) :
    EntityState × List CmdEvent :=
  match ensureConnected env st with
  | (false, st1, ev) => (st1, ev)
  | (true, st1, ev) =>
    let st2 := requestRefresh env.refreshEnv st1
    let st3 := { st2 with attrActivity := get_activity st2.data }
    (st3, ev ++ [CmdEvent.protoPark, CmdEvent.requestRefresh, CmdEvent.writeHaState])

/-- `AutomowerLawnMower.async_pause` (lawn_mower.py lines 160-175): connection
preamble; then `mower_pause()`; then refresh, recompute, write state. -/
def async_pause (env : CmdEnv) (st : EntityState) :
    EntityState × List CmdEvent :=
  match ensureConnected env st with
  | (false, st1, ev) => (st1, ev)
  | (true, st1, ev) =>
    let st2 := requestRefresh env.refreshEnv st1
    let st3 := { st2 with attrActivity := get_activity st2.data }
    (st3, ev ++ [CmdEvent.protoPause, CmdEvent.requestRefresh, CmdEvent.writeHaState])

/-- A Python exception raised out of the battery sensor's update handler:
subscripting `None` or calling `int(None)` raises `TypeError`. -/
inductive PyError where
  | typeError
  deriving DecidableEq, Repr

/-- Python `int(x)` applied to the snapshot's battery field: an integer passes
through; `int(None)` raises `TypeError`. -/
def pyInt (x : Option Nat) : Except PyError Nat :=
  match x with
  | none => Except.error PyError.typeError
  | some n => Except.ok n

/-- `BatterySensor._handle_coordinator_update` (lawn_mower.py lines 195-202),
embedded with its exceptions made explicit: it evaluates
`int(self.coordinator.data["battery_level"])` with no guard — subscripting an
absent `data` raises, `int` of an absent field raises — then sets
`_attr_available` to whether `_attr_native_value` is not `None`, which after a
successful `int` call is always `True`.  Returns the pair
(`_attr_native_value`, `_attr_available`) or the raised error. -/
def battery_handle_coordinator_update (data : Option Snapshot) :
    Except PyError (Option Nat × Bool) :=
  match data with
  | none => Except.error PyError.typeError
  | some snap =>
    match pyInt snap.battery_level with
    | Except.error e => Except.error e
    | Except.ok v =>
      let nativeValue : Option Nat := some v
      Except.ok (nativeValue, nativeValue.isSome)

/-- Whether a poll-cycle event is a client read that returned `None` or raised
`BleakError`. -/
def Event.isFailedRead : Event → Bool
  | Event.readBattery ReadResult.absent => true
  | Event.readBattery ReadResult.bleakError => true
  | Event.readActivity ReadResult.absent => true
  | Event.readActivity ReadResult.bleakError => true
  | Event.readState ReadResult.absent => true
  | Event.readState ReadResult.bleakError => true
  | _ => false

/-- Whether a command event is one of the underlying protocol commands
(`mower_resume`, `mower_override`, `mower_pause`, `mower_park`). -/
def CmdEvent.isProtoCommand : CmdEvent → Bool
  | CmdEvent.protoResume => true
  | CmdEvent.protoOverride => true
  | CmdEvent.protoPause => true
  | CmdEvent.protoPark => true
  | _ => false

/-! ## Helper lemmas about the poll cycle -/

theorem findDevice_trace_findAttempt (env : PollEnv) (conn : Bool) :
    Event.findAttempt ∈ (findDevice env conn).2.2 := by
  unfold findDevice
  rcases env.cacheDevice <;> rcases env.connectOk <;> simp

theorem findDevice_trace_no_failed_read (env : PollEnv) (conn : Bool) :
    ∀ x ∈ (findDevice env conn).2.2, x.isFailedRead = false := by
  unfold findDevice
  rcases env.cacheDevice <;> rcases env.connectOk <;>
    simp [Event.isFailedRead]

theorem findDevice_trace_no_activeScan (env : PollEnv) (conn : Bool) :
    ∀ f, Event.activeScan f ∉ (findDevice env conn).2.2 := by
  unfold findDevice
  rcases env.cacheDevice <;> rcases env.connectOk <;> simp

theorem failCycle_trace_eq (env : PollEnv) (conn : Bool) (tr : List Event) :
    (failCycle env conn tr).trace = tr ++ (findDevice env conn).2.2 := rfl

theorem readSequence_failed_read (env : PollEnv) (conn1 : Bool)
    (tr1 : List Event) (htr : ∀ x ∈ tr1, x.isFailedRead = false) (e : Event)
    (he : e ∈ (readSequence env conn1 tr1).trace)
    (hf : e.isFailedRead = true) :
    (∃ err, (readSequence env conn1 tr1).result = Except.error err) ∧
    ∃ pre post, (readSequence env conn1 tr1).trace = pre ++ e :: post ∧
      Event.findAttempt ∈ post := by
  rcases hb : env.batteryRead with b | _ | _
  · rcases ha : env.activityRead with a | _ | _
    · rcases hs : env.stateRead with s | _ | _
      · exfalso
        by_cases hc : a = MowerActivity.PARKED ∧ conn1 = true
        · simp only [readSequence, hb, ha, hs, if_pos hc, List.append_assoc,
            List.cons_append, List.nil_append, List.mem_append,
            List.mem_cons, List.not_mem_nil, or_false] at he
          rcases he with he | rfl | rfl | rfl | rfl
          · simp [htr e he] at hf
          all_goals exact Bool.noConfusion hf
        · simp only [readSequence, hb, ha, hs, if_neg hc, List.append_assoc,
            List.cons_append, List.nil_append, List.mem_append,
            List.mem_cons, List.not_mem_nil, or_false] at he
          rcases he with he | rfl | rfl | rfl
          · simp [htr e he] at hf
          all_goals exact Bool.noConfusion hf
      all_goals
      · refine ⟨⟨failErr env conn1,
          by simp [readSequence, hb, ha, hs, failCycle]⟩, ?_⟩
        simp only [readSequence, hb, ha, hs, failCycle_trace_eq,
          List.append_assoc, List.cons_append, List.nil_append,
          List.mem_append, List.mem_cons] at he ⊢
        rcases he with he | rfl | rfl | rfl | he
        · simp [htr e he] at hf
        · exact Bool.noConfusion hf
        · exact Bool.noConfusion hf
        · exact ⟨tr1 ++ [Event.readBattery (ReadResult.value b),
              Event.readActivity (ReadResult.value a)],
            (findDevice env conn1).2.2,
            by simp, findDevice_trace_findAttempt env conn1⟩
        · simp [findDevice_trace_no_failed_read env conn1 e he] at hf
    all_goals
    · refine ⟨⟨failErr env conn1,
        by simp [readSequence, hb, ha, failCycle]⟩, ?_⟩
      simp only [readSequence, hb, ha, failCycle_trace_eq,
        List.append_assoc, List.cons_append, List.nil_append,
        List.mem_append, List.mem_cons] at he ⊢
      rcases he with he | rfl | rfl | he
      · simp [htr e he] at hf
      · exact Bool.noConfusion hf
      · exact ⟨tr1 ++ [Event.readBattery (ReadResult.value b)],
          (findDevice env conn1).2.2,
          by simp, findDevice_trace_findAttempt env conn1⟩
      · simp [findDevice_trace_no_failed_read env conn1 e he] at hf
  all_goals
  · refine ⟨⟨failErr env conn1,
      by simp [readSequence, hb, failCycle]⟩, ?_⟩
    simp only [readSequence, hb, failCycle_trace_eq,
      List.append_assoc, List.cons_append, List.nil_append,
      List.mem_append, List.mem_cons] at he ⊢
    rcases he with he | rfl | he
    · simp [htr e he] at hf
    · exact ⟨tr1, (findDevice env conn1).2.2,
        by simp, findDevice_trace_findAttempt env conn1⟩
    · simp [findDevice_trace_no_failed_read env conn1 e he] at hf

theorem readSequence_ok_parked_disconnects (env : PollEnv) (conn1 : Bool)
    (tr1 : List Event) (snap : Snapshot)
    (hok : (readSequence env conn1 tr1).result = Except.ok snap)
    (hp : snap.activity = some MowerActivity.PARKED) :
    (readSequence env conn1 tr1).conn = false := by
  rcases hb : env.batteryRead with b | _ | _
  · rcases ha : env.activityRead with a | _ | _
    · rcases hs : env.stateRead with s | _ | _
      · by_cases hc : a = MowerActivity.PARKED ∧ conn1 = true
        · simp [readSequence, hb, ha, hs, hc]
        · simp only [readSequence, hb, ha, hs, if_neg hc,
            Except.ok.injEq] at hok ⊢
          subst hok
          simp at hp
          subst hp
          rcases conn1 with _ | _
          · rfl
          · exact absurd ⟨rfl, rfl⟩ hc
      · simp [readSequence, hb, ha, hs, failCycle] at hok
      · simp [readSequence, hb, ha, hs, failCycle] at hok
    · simp [readSequence, hb, ha, failCycle] at hok
    · simp [readSequence, hb, ha, failCycle] at hok
  · simp [readSequence, hb, failCycle] at hok
  · simp [readSequence, hb, failCycle] at hok

theorem readSequence_no_activeScan (env : PollEnv) (conn1 : Bool)
    (tr1 : List Event) (htr : ∀ f, Event.activeScan f ∉ tr1) (f : Bool) :
    Event.activeScan f ∉ (readSequence env conn1 tr1).trace := by
  have hfd := findDevice_trace_no_activeScan env conn1 f
  rcases hb : env.batteryRead with b | _ | _
  · rcases ha : env.activityRead with a | _ | _
    · rcases hs : env.stateRead with s | _ | _
      · by_cases hc : a = MowerActivity.PARKED ∧ conn1 = true <;>
          simp [readSequence, hb, ha, hs, hc, htr f]
      all_goals simp [readSequence, hb, ha, hs, failCycle_trace_eq, htr f, hfd]
    all_goals simp [readSequence, hb, ha, failCycle_trace_eq, htr f, hfd]
  all_goals simp [readSequence, hb, failCycle_trace_eq, htr f, hfd]

theorem poll_cycle_no_activeScan (env : PollEnv) (conn : Bool) (f : Bool) :
    Event.activeScan f ∉ (updateData env conn).trace := by
  rcases conn with _ | _
  · rcases hfd : (findDevice env false).1 with _ | err <;>
      simp only [updateData, Bool.false_eq_true, if_false, hfd]
    · exact readSequence_no_activeScan env _ _
        (fun g => findDevice_trace_no_activeScan env false g) f
    · exact findDevice_trace_no_activeScan env false f
  · simp only [updateData, if_true]
    exact readSequence_no_activeScan env _ _ (by simp) f

/-! ## Concrete inputs used by counterexamples and witnesses -/

/-- A cycle that reads PARKED for the activity and then gets `None` for the
state, with the mid-cycle reconnect succeeding. -/
def envParkedThenFail : PollEnv :=
  ⟨true, true, true, ReadResult.value 50,
   ReadResult.value MowerActivity.PARKED, ReadResult.absent⟩

/-- A cycle where all three reads succeed and the activity is PARKED. -/
def envAllOkParked : PollEnv :=
  ⟨true, true, true, ReadResult.value 50,
   ReadResult.value MowerActivity.PARKED,
   ReadResult.value MowerState.IN_OPERATION⟩

/-- A cycle whose battery read returns `None`. -/
def envBatteryAbsent : PollEnv :=
  ⟨true, true, true, ReadResult.absent,
   ReadResult.value MowerActivity.MOWING,
   ReadResult.value MowerState.IN_OPERATION⟩

/-- A cycle where the platform scan cache misses although an active scan would
find the device and a connect would succeed. -/
def envCacheMissScanHit : PollEnv :=
  ⟨false, true, true, ReadResult.value 50,
   ReadResult.value MowerActivity.MOWING,
   ReadResult.value MowerState.IN_OPERATION⟩

/-- A command environment whose refresh cycle fully succeeds. -/
def cmdEnvStd : CmdEnv :=
  ⟨true, true, true,
   ⟨true, true, true, ReadResult.value 50,
    ReadResult.value MowerActivity.MOWING,
    ReadResult.value MowerState.IN_OPERATION⟩⟩

/-- A command environment where both the cache lookup and connect fail. -/
def cmdEnvNoDevice : CmdEnv :=
  ⟨false, true, false,
   ⟨true, true, true, ReadResult.value 50,
    ReadResult.value MowerActivity.MOWING,
    ReadResult.value MowerState.IN_OPERATION⟩⟩

/-- A connected entity whose current presentation activity is PAUSED. -/
def pausedEntity : EntityState :=
  ⟨some LawnMowerActivity.PAUSED, true, none, true⟩

/-- A disconnected entity with a stale snapshot. -/
def disconnectedEntity : EntityState :=
  ⟨some LawnMowerActivity.MOWING, true,
   some ⟨some 50, some MowerActivity.MOWING, some MowerState.IN_OPERATION⟩,
   false⟩

/-! ## Claim theorems -/

/-- C1: the lawn mower entity activity computation (`_get_activity`) returns,
for every (state, activity) pair, exactly the result of the §4.1 decision
table evaluated in order with first match winning: absent when either input is
absent, PAUSED on state PAUSED, ERROR on the stopped-like states, DOCKED or
MOWING on the in-operation states split by activity, and ERROR for every other
combination. -/
theorem mapper_matches_spec_table (d : Option Snapshot) :
    get_activity d = specMapperData d := by
  rcases d with _ | ⟨b, ac, st⟩
  · rfl
  · rcases st with _ | s
    · rfl
    · rcases ac with _ | a
      · rfl
      · cases s <;> cases a <;> rfl

/-- C2 counterexample: a poll cycle reads PARKED for the activity, then the
state read returns `None` and the mid-cycle reconnect succeeds — the cycle
ends with the connection handle still connected, contradicting the claim that
every cycle whose activity read returns PARKED ends disconnected. -/
theorem parked_read_then_failed_state_stays_connected :
    Event.readActivity (ReadResult.value MowerActivity.PARKED)
        ∈ (updateData envParkedThenFail true).trace ∧
    (updateData envParkedThenFail true).conn = true := by
  decide

/-- C2 amended: for every poll cycle in which all three reads succeed and the
returned snapshot has activity PARKED, the connection handle is disconnected
by the end of the cycle; cycles where a later read fails after PARKED was read
take the reconnect-and-fail path instead and may end connected. -/
theorem parked_success_cycle_disconnects (env : PollEnv) (conn : Bool)
    (snap : Snapshot)
    (hok : (updateData env conn).result = Except.ok snap)
    (hp : snap.activity = some MowerActivity.PARKED) :
    (updateData env conn).conn = false := by
  rcases conn with _ | _
  · simp only [updateData, Bool.false_eq_true, if_false] at hok ⊢
    rcases hf : (findDevice env false).1 with _ | e
    · simp only [hf] at hok ⊢
      exact readSequence_ok_parked_disconnects env _ _ snap hok hp
    · simp [hf] at hok
  · simp only [updateData, if_true] at hok ⊢
    exact readSequence_ok_parked_disconnects env _ _ snap hok hp

theorem parked_success_cycle_disconnects_witness :
    (updateData envAllOkParked true).conn = false :=
  parked_success_cycle_disconnects envAllOkParked true
    ⟨some 50, some MowerActivity.PARKED, some MowerState.IN_OPERATION⟩
    (by decide) (by decide)

/-- C3: for every poll cycle in which one of the three reads returns `None` or
raises a communication error, the cycle ends raising an update failure rather
than returning a snapshot, and a reconnect attempt occurs after the failing
read and before the failure is raised. -/
theorem failed_read_fails_cycle_and_reconnects (env : PollEnv) (conn : Bool)
    (e : Event) (he : e ∈ (updateData env conn).trace)
    (hf : e.isFailedRead = true) :
    (∃ err, (updateData env conn).result = Except.error err) ∧
    ∃ pre post, (updateData env conn).trace = pre ++ e :: post ∧
      Event.findAttempt ∈ post := by
  rcases conn with _ | _
  · rcases hfd : (findDevice env false).1 with _ | err
    · simp only [updateData, Bool.false_eq_true, if_false, hfd] at he ⊢
      exact readSequence_failed_read env _ _
        (findDevice_trace_no_failed_read env false) e he hf
    · simp only [updateData, Bool.false_eq_true, if_false, hfd] at he ⊢
      exact absurd hf (by simp [findDevice_trace_no_failed_read env false e he])
  · simp only [updateData, if_true] at he ⊢
    exact readSequence_failed_read env _ _ (by simp) e he hf

theorem failed_read_fails_cycle_and_reconnects_witness :
    (∃ err, (updateData envBatteryAbsent true).result = Except.error err) ∧
    ∃ pre post, (updateData envBatteryAbsent true).trace
        = pre ++ (Event.readBattery ReadResult.absent) :: post ∧
      Event.findAttempt ∈ post :=
  failed_read_fails_cycle_and_reconnects envBatteryAbsent true
    (Event.readBattery ReadResult.absent) (by decide) (by decide)

/-- C4 counterexample: a poll tick starts disconnected, the platform scan
cache lookup misses while an active scan would have located the device and a
connect would have succeeded — yet the cycle aborts with an update failure and
no active scan is ever attempted, contradicting the claimed cache-then-scan
fallback in the poller. -/
theorem cache_miss_aborts_despite_scan :
    envCacheMissScanHit.activeScanDevice = true ∧
    envCacheMissScanHit.connectOk = true ∧
    (updateData envCacheMissScanHit false).result
      = Except.error UpdateFailed.cantFindDevice ∧
    (updateData envCacheMissScanHit false).conn = false ∧
    ∀ f, Event.activeScan f ∉ (updateData envCacheMissScanHit false).trace := by
  decide

/-- C4 amended: a poll tick that starts disconnected locates the device using
only the platform scan cache — no active scan is ever attempted — and when the
cache lookup misses or the subsequent connect fails, the cycle aborts with an
update failure leaving the handle disconnected. -/
theorem disconnected_cycle_cache_only (env : PollEnv)
    (h : env.cacheDevice = false ∨ env.connectOk = false) :
    (∃ err, (updateData env false).result = Except.error err) ∧
    (updateData env false).conn = false ∧
    ∀ f, Event.activeScan f ∉ (updateData env false).trace := by
  refine ⟨?_, ?_, fun f => poll_cycle_no_activeScan env false f⟩ <;>
    rcases h with h | h
  · simp [updateData, findDevice, h]
  · rcases hcd : env.cacheDevice <;> simp [updateData, findDevice, hcd, h]
  · simp [updateData, findDevice, h]
  · rcases hcd : env.cacheDevice <;> simp [updateData, findDevice, hcd, h]

theorem disconnected_cycle_cache_only_witness :
    (∃ err, (updateData envCacheMissScanHit false).result = Except.error err) ∧
    (updateData envCacheMissScanHit false).conn = false ∧
    ∀ f, Event.activeScan f ∉ (updateData envCacheMissScanHit false).trace :=
  disconnected_cycle_cache_only envCacheMissScanHit (Or.inl rfl)

/-- C5: a command (start, dock or pause) invoked while the connection handle
is disconnected whose connect attempt fails issues no underlying protocol
command and returns with the entity state — presentation activity, snapshot
and connection state — unchanged. -/
theorem commands_require_connection (env : CmdEnv) (st : EntityState)
    (h1 : st.conn = false) (h2 : env.connectOk = false) :
    ((async_start_mowing env st).1 = st ∧
     (async_dock env st).1 = st ∧
     (async_pause env st).1 = st) ∧
    ∀ e, (e ∈ (async_start_mowing env st).2 ∨ e ∈ (async_dock env st).2 ∨
          e ∈ (async_pause env st).2) → e.isProtoCommand = false := by
  obtain ⟨aa, av, da, cn⟩ := st
  simp only at h1
  subst h1
  constructor
  · simp [async_start_mowing, async_dock, async_pause, ensureConnected, h2]
  · intro e he
    rcases he with he | he | he <;>
      simp [async_start_mowing, async_dock, async_pause,
        ensureConnected, h2] at he <;>
      rcases he with rfl | rfl <;> rfl

theorem commands_require_connection_witness :
    ((async_start_mowing cmdEnvNoDevice disconnectedEntity).1
        = disconnectedEntity ∧
     (async_dock cmdEnvNoDevice disconnectedEntity).1 = disconnectedEntity ∧
     (async_pause cmdEnvNoDevice disconnectedEntity).1 = disconnectedEntity) ∧
    ∀ e, (e ∈ (async_start_mowing cmdEnvNoDevice disconnectedEntity).2 ∨
          e ∈ (async_dock cmdEnvNoDevice disconnectedEntity).2 ∨
          e ∈ (async_pause cmdEnvNoDevice disconnectedEntity).2) →
      e.isProtoCommand = false :=
  commands_require_connection cmdEnvNoDevice disconnectedEntity rfl rfl

/-- C6 counterexample: a start command issued while connected with the current
presentation activity PAUSED issues the resume protocol command but not the
override command, contradicting the claim that every start past the
connection check issues resume together with override. -/
theorem start_without_override_when_not_docked :
    CmdEvent.protoResume ∈ (async_start_mowing cmdEnvStd pausedEntity).2 ∧
    CmdEvent.protoOverride ∉ (async_start_mowing cmdEnvStd pausedEntity).2 := by
  decide

/-- C6 amended: a start command that proceeds past the connection check issues
resume, adds override exactly when the current presentation activity is
DOCKED, then requests a snapshot refresh, recomputes the presentation activity
from the refreshed snapshot and publishes it; dock and pause issue exactly the
park and pause commands followed by the same refresh-recompute-publish
sequence. -/
theorem connected_command_sequences (env : CmdEnv) (st : EntityState)
    (h : st.conn = true) :
    (async_start_mowing env st).2
      = [CmdEvent.protoResume]
        ++ (if st.attrActivity = some LawnMowerActivity.DOCKED
            then [CmdEvent.protoOverride] else [])
        ++ [CmdEvent.requestRefresh, CmdEvent.writeHaState] ∧
    (async_start_mowing env st).1.attrActivity
      = get_activity (requestRefresh env.refreshEnv st).data ∧
    (async_dock env st).2
      = [CmdEvent.protoPark, CmdEvent.requestRefresh, CmdEvent.writeHaState] ∧
    (async_dock env st).1.attrActivity
      = get_activity (requestRefresh env.refreshEnv st).data ∧
    (async_pause env st).2
      = [CmdEvent.protoPause, CmdEvent.requestRefresh, CmdEvent.writeHaState] ∧
    (async_pause env st).1.attrActivity
      = get_activity (requestRefresh env.refreshEnv st).data := by
  by_cases hd : st.attrActivity = some LawnMowerActivity.DOCKED <;>
    simp [async_start_mowing, async_dock, async_pause, ensureConnected, h, hd]

theorem connected_command_sequences_witness :
    (async_start_mowing cmdEnvStd pausedEntity).2
      = [CmdEvent.protoResume]
        ++ (if pausedEntity.attrActivity = some LawnMowerActivity.DOCKED
            then [CmdEvent.protoOverride] else [])
        ++ [CmdEvent.requestRefresh, CmdEvent.writeHaState] ∧
    (async_start_mowing cmdEnvStd pausedEntity).1.attrActivity
      = get_activity (requestRefresh cmdEnvStd.refreshEnv pausedEntity).data ∧
    (async_dock cmdEnvStd pausedEntity).2
      = [CmdEvent.protoPark, CmdEvent.requestRefresh, CmdEvent.writeHaState] ∧
    (async_dock cmdEnvStd pausedEntity).1.attrActivity
      = get_activity (requestRefresh cmdEnvStd.refreshEnv pausedEntity).data ∧
    (async_pause cmdEnvStd pausedEntity).2
      = [CmdEvent.protoPause, CmdEvent.requestRefresh, CmdEvent.writeHaState] ∧
    (async_pause cmdEnvStd pausedEntity).1.attrActivity
      = get_activity (requestRefresh cmdEnvStd.refreshEnv pausedEntity).data :=
  connected_command_sequences cmdEnvStd pausedEntity rfl

/-- C7: the entity adapters (lawn mower and battery sensor share the
overriding `available` property of `HusqvarnaAutomowerBleEntity`) report
unavailable whenever the connection handle is disconnected, whatever the
snapshot, the stored presentation activity or the `_attr_available` attribute
say — including right after a coordinator update recomputed
`_attr_available` from the mapper output. -/
theorem disconnected_entity_unavailable (a : Option LawnMowerActivity)
    (av : Bool) (d : Option Snapshot) :
    entityAvailable ⟨a, av, d, false⟩ = false ∧
    entityAvailable (handle_coordinator_update ⟨a, av, d, false⟩) = false := by
  simp [entityAvailable, handle_coordinator_update]

/-- C8: the battery sensor coordinator-update handler evaluates
`int(coordinator.data["battery_level"])` with no guard, so it raises when the
coordinator data is absent or the battery field is absent, and whenever it
returns normally its `_attr_available` flag is true — the
`value is not None` check after a successful `int` can never be false. -/
theorem battery_update_unguarded (data : Option Snapshot) :
    (data = none →
      battery_handle_coordinator_update data = Except.error PyError.typeError) ∧
    (∀ snap, data = some snap → snap.battery_level = none →
      battery_handle_coordinator_update data = Except.error PyError.typeError) ∧
    ∀ nv avail, battery_handle_coordinator_update data = Except.ok (nv, avail) →
      avail = true := by
  refine ⟨fun h => by simp [h, battery_handle_coordinator_update], ?_, ?_⟩
  · intro snap hd hb
    simp [hd, hb, battery_handle_coordinator_update, pyInt]
  · intro nv avail h
    rcases data with _ | snap
    · simp [battery_handle_coordinator_update] at h
    · rcases hb : snap.battery_level with _ | v <;>
        simp [battery_handle_coordinator_update, pyInt, hb] at h
      exact h.2

theorem battery_update_unguarded_witness :
    battery_handle_coordinator_update none = Except.error PyError.typeError ∧
    battery_handle_coordinator_update (some ⟨none, none, none⟩)
      = Except.error PyError.typeError ∧
    (true : Bool) = true :=
  ⟨(battery_update_unguarded none).1 rfl,
   (battery_update_unguarded (some ⟨none, none, none⟩)).2.1 _ rfl rfl,
   (battery_update_unguarded (some ⟨some 42, none, none⟩)).2.2
     (some 42) true (by decide)⟩

/-- C9: a command invoked while disconnected looks the device up only in the
platform scan cache — no active-scan fallback, unlike setup — and when that
lookup misses, the absent device handle is passed directly to the connect
call rather than aborting first. -/
theorem disconnected_command_lookup_no_fallback (env : CmdEnv)
    (st : EntityState) (h1 : st.conn = false) (h2 : env.cacheDevice = false) :
    (CmdEvent.connectCall false env.connectOk
        ∈ (async_start_mowing env st).2 ∧
      ∀ f, CmdEvent.activeScan f ∉ (async_start_mowing env st).2) ∧
    (CmdEvent.connectCall false env.connectOk ∈ (async_dock env st).2 ∧
      ∀ f, CmdEvent.activeScan f ∉ (async_dock env st).2) ∧
    (CmdEvent.connectCall false env.connectOk ∈ (async_pause env st).2 ∧
      ∀ f, CmdEvent.activeScan f ∉ (async_pause env st).2) := by
  rcases hco : env.connectOk
  · simp [async_start_mowing, async_dock, async_pause, ensureConnected,
      h1, h2, hco]
  · by_cases hd : st.attrActivity = some LawnMowerActivity.DOCKED <;>
      simp [async_start_mowing, async_dock, async_pause, ensureConnected,
        h1, h2, hco, hd]

theorem disconnected_command_lookup_no_fallback_witness :
    (CmdEvent.connectCall false cmdEnvNoDevice.connectOk
        ∈ (async_start_mowing cmdEnvNoDevice disconnectedEntity).2 ∧
      ∀ f, CmdEvent.activeScan f
        ∉ (async_start_mowing cmdEnvNoDevice disconnectedEntity).2) ∧
    (CmdEvent.connectCall false cmdEnvNoDevice.connectOk
        ∈ (async_dock cmdEnvNoDevice disconnectedEntity).2 ∧
      ∀ f, CmdEvent.activeScan f
        ∉ (async_dock cmdEnvNoDevice disconnectedEntity).2) ∧
    (CmdEvent.connectCall false cmdEnvNoDevice.connectOk
        ∈ (async_pause cmdEnvNoDevice disconnectedEntity).2 ∧
      ∀ f, CmdEvent.activeScan f
        ∉ (async_pause cmdEnvNoDevice disconnectedEntity).2) :=
  disconnected_command_lookup_no_fallback cmdEnvNoDevice disconnectedEntity
    rfl rfl

/-- C10: immediately after construction — before any snapshot has been
processed, so the coordinator data is absent — the lawn mower entity holds
presentation activity ERROR, although the mapper yields an absent result for
an absent snapshot; the first coordinator update then replaces the stored
activity with the mapper output. -/
theorem init_activity_error_until_first_update (conn : Bool)
    (d : Option Snapshot) :
    (initEntityState conn).attrActivity = some LawnMowerActivity.ERROR ∧
    get_activity (initEntityState conn).data = none ∧
    (initEntityState conn).attrActivity
      ≠ get_activity (initEntityState conn).data ∧
    (handle_coordinator_update
        { initEntityState conn with data := d }).attrActivity
      = get_activity d := by
  simp [initEntityState, handle_coordinator_update, get_activity]

end AutomowerBLE
